import Mathlib

/-!
Shallow embedding of the azure-ai-fastapi-demo repository: the resilient
AI-service facades (`app/services/ai_service.py`), the image-classification
fallback (`app/services/image_classifier.py`), blob-store persistence
(`app/services/blob_storage.py`), the auth endpoints (`app/routers/auth.py`,
`app/auth/dependencies.py`) and the request-pipeline error translation
(`app/routers/ai_endpoints.py`, `app/main.py`).

Python floats are modelled as exact rationals (ℚ); wall-clock timestamps,
UUID generation, password hashing and JWT encoding/decoding are threaded as
explicit parameters, since they are effects (or live in `app/auth/jwt_handler.py`,
which is not part of the sources).
-/

deriving instance DecidableEq for Except

namespace AzureDemo

/-- Occurrence of `p` as a contiguous sublist of the second argument;
Python's `p in s` for strings. The empty pattern occurs in every string. -/
def subOccurs (p : List Char) : List Char → Bool
  | [] => p.isEmpty
  | c :: cs => p.isPrefixOf (c :: cs) || subOccurs p cs

/-- Python `w in t` on strings (substring containment). -/
def pyIn (w t : String) : Bool := subOccurs w.data t.data

/-- Python `str.lower()` (ASCII-adequate model via `Char.toLower`). -/
def pyLower (s : String) : String := String.mk (s.data.map Char.toLower)

/-- `positive_words` from `_mock_sentiment_analysis`. -/
def positive_words : List String :=
  ["good", "great", "excellent", "amazing", "wonderful", "fantastic", "love", "happy"]

/-- `negative_words` from `_mock_sentiment_analysis`. -/
def negative_words : List String :=
  ["bad", "terrible", "awful", "horrible", "hate", "sad", "angry", "poor"]

/-- `sum(1 for word in words if word in text_lower)`: the number of keywords
occurring in the text. -/
def kwScore (ws : List String) (t : String) : Nat :=
  (ws.filter (fun w => pyIn w t)).length

/-- The `scores` dictionary of a sentiment result. -/
structure SentimentScores where
  positive : ℚ
  negative : ℚ
  neutral : ℚ
  deriving DecidableEq, Repr

/-- Result dictionary of `analyze_sentiment` / `_mock_sentiment_analysis`. -/
structure SentimentResult where
  sentiment : String
  confidence : ℚ
  scores : SentimentScores
  processing_time : ℚ
  deriving DecidableEq, Repr

/-- `AzureAIService._mock_sentiment_analysis` (ai_service.py lines 181-212):
keyword-weighted deterministic fallback sentiment analysis. -/
def mock_sentiment_analysis (text : String) : SentimentResult :=
  let text_lower := pyLower text
  let positive_score : ℚ := (kwScore positive_words text_lower : ℚ) / 10
  let negative_score : ℚ := (kwScore negative_words text_lower : ℚ) / 10
  let neutral_score : ℚ := 1 - positive_score - negative_score
  if positive_score > negative_score then
    { sentiment := "positive", confidence := min (0.5 + positive_score) 0.95,
      scores := { positive := min (positive_score + 0.3) 1.0,
                  negative := negative_score, neutral := neutral_score },
      processing_time := 0.1 }
  else if negative_score > positive_score then
    { sentiment := "negative", confidence := min (0.5 + negative_score) 0.95,
      scores := { positive := positive_score,
                  negative := min (negative_score + 0.3) 1.0, neutral := neutral_score },
      processing_time := 0.1 }
  else
    { sentiment := "neutral", confidence := 0.6,
      scores := { positive := positive_score, negative := negative_score,
                  neutral := neutral_score },
      processing_time := 0.1 }

/-- The category/keyword table of `_mock_text_classification`. -/
def categories_keywords : List (String × List String) :=
  [("Technology", ["tech", "software", "computer", "ai", "data", "cloud", "app"]),
   ("Business", ["business", "company", "market", "revenue", "profit", "investment"]),
   ("Sports", ["sports", "game", "team", "player", "match", "championship"]),
   ("Entertainment", ["movie", "music", "film", "show", "celebrity", "entertainment"]),
   ("Politics", ["politics", "government", "election", "president", "policy"]),
   ("Health", ["health", "medical", "doctor", "hospital", "disease", "treatment"])]

/-- Result dictionary of `classify_text` / `_mock_text_classification`. -/
structure ClassificationResult where
  category : String
  confidence : ℚ
  all_scores : List (String × ℚ)
  processing_time : ℚ
  deriving DecidableEq, Repr

/-- Python `max(items, key=lambda x: x[1])` starting from accumulator `acc`:
a later item replaces the current best only when strictly greater, so the
first maximal item wins. -/
def pyMaxBySnd : List (String × ℚ) → (String × ℚ) → (String × ℚ)
  | [], acc => acc
  | p :: ps, acc => pyMaxBySnd ps (if p.2 > acc.2 then p else acc)

/-- `AzureAIService._mock_text_classification` (ai_service.py lines 214-243):
deterministic keyword-frequency fallback classification. -/
def mock_text_classification (text : String) : ClassificationResult :=
  let text_lower := pyLower text
  let scores := categories_keywords.map
    (fun ck => (ck.1, min ((kwScore ck.2 text_lower : ℚ) / (ck.2.length : ℚ) + 0.1) 0.9))
  let best := match scores with
    | [] => ("", 0)
    | s :: ss => pyMaxBySnd ss s
  { category := best.1, confidence := best.2, all_scores := scores,
    processing_time := 0.1 }

/-!
The facades. `client : Bool` is the availability state fixed at construction
(`self.client is not None`); the external Azure OpenAI call inside the `try`
block is threaded as an explicit `delegate` that either returns a structured
result or raises (`Except.error`).
-/

/-- `AzureAIService.analyze_sentiment`: mock when no client, and on any
delegation error the exception is caught and the call degrades to
`_mock_sentiment_analysis` (ai_service.py lines 80-82). Never raises. -/
def analyze_sentiment (client : Bool)
    (delegate : String → Except String SentimentResult) (text : String) :
    SentimentResult :=
  if !client then mock_sentiment_analysis text
  else match delegate text with
    | .ok r => r
    | .error _ => mock_sentiment_analysis text

/-- `AzureAIService.classify_text`: same catch-and-degrade shape
(ai_service.py lines 133-135). Never raises. -/
def classify_text (client : Bool)
    (delegate : String → Option (List String) → Except String ClassificationResult)
    (text : String) (categories : Option (List String)) : ClassificationResult :=
  if !client then mock_text_classification text
  else match delegate text categories with
    | .ok r => r
    | .error _ => mock_text_classification text

/-- Result dictionary of `chat_completion` (`processing_time`, a wall-clock
measurement, is not modelled). -/
structure ChatResult where
  response : String
  model : String
  tokens_used : Nat
  deriving DecidableEq, Repr

/-- `AzureAIService.chat_completion` (ai_service.py lines 137-179): mock
result when no client; but on a delegation error the handler logs and
re-raises (`raise`, line 179) instead of degrading. -/
def chat_completion (client : Bool)
    (delegate : String → Nat → ℚ → Except String ChatResult)
    (prompt : String) (max_tokens : Nat) (temperature : ℚ) :
    Except String ChatResult :=
  if !client then
    .ok { response := "Azure OpenAI is not configured. This is a mock response.",
          model := "mock", tokens_used := 0 }
  else match delegate prompt max_tokens temperature with
    | .ok r => .ok r
    | .error e => .error e

/-!
Request pipeline (`app/routers/ai_endpoints.py` together with `app/main.py`).
A Python exception in flight is either an `HTTPException(status, detail)` or
a plain exception carrying its message.
-/

/-- A raised Python exception: FastAPI `HTTPException` or any other. -/
inductive PyErr where
  | httpExc (status : Nat) (detail : String)
  | exc (msg : String)
  deriving DecidableEq, Repr

/-- Pydantic bound from `app/models/schemas.py`: `min_length=1, max_length=5000`. -/
def validText (t : String) : Bool := 1 ≤ t.length && t.length ≤ 5000

/-- `OpenAIResponse` schema (timing field not modelled). -/
structure OpenAIResponse where
  prompt : String
  response : String
  model : String
  tokens_used : Nat
  request_id : String
  deriving DecidableEq, Repr

/-- `SentimentAnalysisResponse` schema (timing field not modelled). -/
structure SentimentResponse where
  text : String
  sentiment : String
  confidence : ℚ
  scores : SentimentScores
  request_id : String
  deriving DecidableEq, Repr

/-- The `/api/v1/chat` endpoint (ai_endpoints.py lines 139-193): framework
validation rejects out-of-bound input with a 422 before the handler runs;
inside the handler any exception from the facade call is caught and
re-raised as `HTTPException(status_code=500, detail=str(e))`. -/
def chat_route (client : Bool)
    (delegate : String → Nat → ℚ → Except String ChatResult)
    (prompt : String) (max_tokens : Nat) (temperature : ℚ)
    (request_id : String) : Except PyErr OpenAIResponse :=
  if !(validText prompt) then .error (.httpExc 422 "validation error")
  else match chat_completion client delegate prompt max_tokens temperature with
    | .ok r => .ok { prompt := prompt, response := r.response, model := r.model,
                     tokens_used := r.tokens_used, request_id := request_id }
    | .error e => .error (.httpExc 500 e)

/-- The `/api/v1/sentiment` endpoint (ai_endpoints.py lines 37-85): the
facade itself never raises, so the handler's `except` re-raise path is
unreachable in this model; validation still precedes the handler. -/
def sentiment_route (client : Bool)
    (delegate : String → Except String SentimentResult)
    (text : String) (request_id : String) : Except PyErr SentimentResponse :=
  if !(validText text) then .error (.httpExc 422 "validation error")
  else
    let r := analyze_sentiment client delegate text
    .ok { text := text, sentiment := r.sentiment, confidence := r.confidence,
          scores := r.scores, request_id := request_id }

/-- `global_exception_handler` (main.py lines 63-73): a 500 whose detail is
the original message only under `settings.DEBUG`, else a redacted one. -/
def global_exception_handler (debug : Bool) (exc : String) : Nat × String :=
  (500, if debug then exc else "An error occurred")

/-- How an in-flight exception reaches the caller: `HTTPException`s are
rendered by FastAPI with their own status and detail; anything else falls
to `global_exception_handler`. -/
def app_error_response (debug : Bool) : PyErr → Nat × String
  | .httpExc s d => (s, d)
  | .exc m => global_exception_handler debug m

/-- Caller-observable (status, error-detail) of a pipeline outcome. -/
def app_response {A : Type} (debug : Bool) : Except PyErr A → Nat × String
  | .ok _ => (200, "")
  | .error e => app_error_response debug e

/-!
Authentication (`app/routers/auth.py`, `app/auth/dependencies.py`,
`app/auth/models.py`). `USERS_DB` (a dict keyed by the generated id, whose
records also carry the id) is modelled as a list of records in insertion
order; `dict.values()` iteration is the list itself and `USERS_DB.get` /
`USERS_DB[k] = v` are `find?` / append. The password/JWT helpers live in
`app/auth/jwt_handler.py`, which is not among the sources, so hashing,
verification, token minting and token decoding are abstract parameters.
-/

/-- `HTTPException` raised by the auth code: status, detail and whether the
`WWW-Authenticate: Bearer` header was attached. -/
structure HttpErr where
  status : Nat
  detail : String
  www_authenticate : Bool
  deriving DecidableEq, Repr

/-- A stored record of `USERS_DB`. `created_at` is an abstract timestamp. -/
structure UserRec where
  id : String
  username : String
  email : String
  full_name : Option String
  hashed_password : String
  is_active : Bool
  created_at : Nat
  deriving DecidableEq, Repr

/-- The `User` response model: every stored field except `hashed_password`. -/
structure UserView where
  id : String
  username : String
  email : String
  full_name : Option String
  is_active : Bool
  created_at : Nat
  deriving DecidableEq, Repr

/-- `UserCreate` request body. -/
structure UserCreate where
  username : String
  email : String
  password : String
  full_name : Option String
  deriving DecidableEq, Repr

/-- `Token` response model. -/
structure Token where
  access_token : String
  token_type : String
  expires_in : Nat
  deriving DecidableEq, Repr

/-- `return User(**{k: v for k, v in user.items() if k != "hashed_password"})`. -/
def userView (u : UserRec) : UserView :=
  { id := u.id, username := u.username, email := u.email,
    full_name := u.full_name, is_active := u.is_active, created_at := u.created_at }

/-- `POST /auth/register` (auth.py lines 23-66). `hash` is
`get_password_hash`, `new_id` the `uuid.uuid4()` draw and `now` the
`datetime.utcnow()` reading of this call. Returns the handler outcome
together with the `USERS_DB` state after the call. -/
def register (db : List UserRec) (hash : String → String) (new_id : String)
    (now : Nat) (r : UserCreate) : Except HttpErr UserView × List UserRec :=
  if db.any (fun u => u.username == r.username) then
    (.error { status := 400, detail := "Username already registered",
              www_authenticate := false }, db)
  else if db.any (fun u => u.email == r.email) then
    (.error { status := 400, detail := "Email already registered",
              www_authenticate := false }, db)
  else
    let user : UserRec :=
      { id := new_id, username := r.username, email := r.email,
        full_name := r.full_name, hashed_password := hash r.password,
        is_active := true, created_at := now }
    (.ok (userView user), db ++ [user])

/-- The `HTTPException(401, "Incorrect username or password")` of `login`. -/
def invalid_credentials_error : HttpErr :=
  { status := 401, detail := "Incorrect username or password", www_authenticate := true }

/-- `POST /auth/login` (auth.py lines 69-116). `verify` is
`verify_password(plain, hashed)` and `mk_token` is `create_access_token`
applied to the matched record's claims. -/
def login (db : List UserRec) (verify : String → String → Bool)
    (mk_token : UserRec → String) (expire_minutes : Nat)
    (username password : String) : Except HttpErr Token :=
  match db.find? (fun u => u.username == username) with
  | none => .error invalid_credentials_error
  | some user =>
    if !(verify password user.hashed_password) then .error invalid_credentials_error
    else if !user.is_active then
      .error { status := 400, detail := "Inactive user", www_authenticate := false }
    else
      .ok { access_token := mk_token user, token_type := "bearer",
            expires_in := expire_minutes * 60 }

/-- The decoded claim set handed back by `verify_token`; every claim is
optional (`payload.get`). -/
structure TokenPayload where
  sub : Option String
  user_id : Option String
  email : Option String
  full_name : Option String
  deriving DecidableEq, Repr

/-- The dict returned by the `get_current_user` dependency. -/
structure CurrentUser where
  username : String
  user_id : String
  email : Option String
  full_name : Option String
  deriving DecidableEq, Repr

/-- The `credentials_exception` of `app/auth/dependencies.py`. -/
def credentials_exception : HttpErr :=
  { status := 401, detail := "Could not validate credentials", www_authenticate := true }

/-- `get_current_user` (dependencies.py lines 13-45). `verify_token` is the
token decoder of `app/auth/jwt_handler.py`, abstract here; it yields `none`
exactly when decoding rejects. -/
def get_current_user (verify_token : String → Option TokenPayload)
    (token : String) : Except HttpErr CurrentUser :=
  match verify_token token with
  | none => .error credentials_exception
  | some payload =>
    match payload.sub, payload.user_id with
    | some username, some uid =>
      .ok { username := username, user_id := uid,
            email := payload.email, full_name := payload.full_name }
    | some _, none => .error credentials_exception
    | none, _ => .error credentials_exception

/-- `GET /auth/me` handler body (auth.py lines 119-135), given the dependency
result. -/
def get_current_user_info (db : List UserRec) (cu : CurrentUser) :
    Except HttpErr UserView :=
  match db.find? (fun u => u.id == cu.user_id) with
  | none => .error { status := 404, detail := "User not found", www_authenticate := false }
  | some u => .ok (userView u)

/-- The spec's `identify(token)`: the `get_current_user` dependency followed
by the `/auth/me` handler, propagating a dependency failure unchanged. -/
def identify (verify_token : String → Option TokenPayload)
    (db : List UserRec) (token : String) : Except HttpErr UserView :=
  match get_current_user verify_token token with
  | .error e => .error e
  | .ok cu => get_current_user_info db cu

/-!
Blob storage (`app/services/blob_storage.py`). The container is a mapping
from blob name to content; `upload_blob(..., overwrite=True)` replaces any
existing blob under the same name.
-/

/-- A stored log blob: the serialized record plus the `logged_at` stamp the
service injects before uploading. -/
structure LogBlob where
  payload : String
  logged_at : String
  deriving DecidableEq, Repr

/-- `blob_name = f"logs/{timestamp}/{request_id}.json"` (blob_storage.py line 62). -/
def blob_key (date request_id : String) : String :=
  "logs/" ++ date ++ "/" ++ request_id ++ ".json"

/-- `upload_blob(..., overwrite=True)`: replace any blob under `k` with `v`. -/
def upload_blob (store : List (String × LogBlob)) (k : String) (v : LogBlob) :
    List (String × LogBlob) :=
  (store.filter (fun p => !(p.1 == k))) ++ [(k, v)]

/-- `BlobStorageService.save_request_log` (blob_storage.py lines 44-84).
`date` is `utcnow().strftime("%Y%m%d")` and `logged_at` the ISO stamp of
this call; both are explicit since they are clock reads. Returns the
success flag and the container state after the call. -/
def save_request_log (client : Bool) (store : List (String × LogBlob))
    (date logged_at request_id : String) (data : String) :
    Bool × List (String × LogBlob) :=
  if !client then (false, store)
  else (true, upload_blob store (blob_key date request_id)
    { payload := data, logged_at := logged_at })

/-!
Image classification fallback (`app/services/image_classifier.py`).
`random.choice(self.classes)` is an index draw `choice`, and each
`random.uniform` draw is threaded explicitly: `conf` for the chosen pose,
`draw cls` for the per-class draws of the non-chosen classes.
-/

/-- `self.classes` of `ImageClassifierService`. -/
def image_classes : List String := ["lying", "standing", "sitting"]

/-- Result dictionary of `_mock_classification`. -/
structure PoseResult where
  pose : String
  confidence : ℚ
  all_scores : List (String × ℚ)
  detections_count : Nat
  processing_time : ℚ
  message : String
  deriving DecidableEq, Repr

/-- `ImageClassifierService._mock_classification` (image_classifier.py
lines 109-130). -/
def mock_classification (choice : Fin 3) (conf : ℚ) (draw : String → ℚ) :
    PoseResult :=
  let pose := image_classes.getD choice.val ""
  { pose := pose, confidence := conf,
    all_scores := image_classes.map
      (fun cls => (cls, if cls == pose then conf else draw cls)),
    detections_count := 1, processing_time := 0.15,
    message := "Using mock classification (model not loaded)" }

/-- A sample stored user, used to instantiate concrete scenarios. -/
def sampleUser : UserRec :=
  { id := "id-1", username := "alice", email := "alice@x.com",
    full_name := none, hashed_password := "h-secret1", is_active := true,
    created_at := 0 }

/-! ## Theorems -/

/-- The keyword score is bounded by the number of keywords. -/
theorem kwScore_le_length (ws : List String) (t : String) :
    kwScore ws t ≤ ws.length :=
  List.length_filter_le _ _

/-- C4: for every credential-store state, a login with an unknown username
and a login with a known username but a password failing hash verification
fail with the *same* error: equal category (401) and equal message, so the
caller cannot tell which check failed. -/
theorem login_unknown_user_and_bad_password_indistinguishable
    (db : List UserRec) (verify : String → String → Bool)
    (mk_token : UserRec → String) (expire_minutes : Nat)
    (u1 p1 u2 p2 : String) (rec : UserRec)
    (h1 : db.find? (fun u => u.username == u1) = none)
    (h2 : db.find? (fun u => u.username == u2) = some rec)
    (h3 : verify p2 rec.hashed_password = false) :
    login db verify mk_token expire_minutes u1 p1 =
      Except.error invalid_credentials_error ∧
    login db verify mk_token expire_minutes u2 p2 =
      Except.error invalid_credentials_error ∧
    login db verify mk_token expire_minutes u1 p1 =
      login db verify mk_token expire_minutes u2 p2 := by
  simp [login, h1, h2, h3]

/-- Witness for C4: one registered user "alice"; a login for the unknown
"nobody" and a login for "alice" with a failing password verifier produce
the identical 401 error. -/
theorem login_indistinguishable_witness :
    login [sampleUser] (fun _ _ => false) (fun _ => "tok") 30 "nobody" "pw" =
      Except.error invalid_credentials_error ∧
    login [sampleUser] (fun _ _ => false) (fun _ => "tok") 30 "alice" "pw" =
      Except.error invalid_credentials_error ∧
    login [sampleUser] (fun _ _ => false) (fun _ => "tok") 30 "nobody" "pw" =
      login [sampleUser] (fun _ _ => false) (fun _ => "tok") 30 "alice" "pw" :=
  login_unknown_user_and_bad_password_indistinguishable
    [sampleUser] (fun _ _ => false) (fun _ => "tok") 30
    "nobody" "pw" "alice" "pw" sampleUser (by decide) (by decide) rfl

/-- C6: `identify` (the `get_current_user` dependency composed with the
`/auth/me` handler) fails 401 when token decoding rejects or the claims lack
`sub` or `user_id`; otherwise fails 404 when no stored user carries the
claimed `user_id`; otherwise returns the stored user's view (which carries
no password hash field). -/
theorem identify_case_analysis (verify_token : String → Option TokenPayload)
    (db : List UserRec) (token : String) :
    (verify_token token = none →
      identify verify_token db token = Except.error credentials_exception) ∧
    (∀ p, verify_token token = some p → (p.sub = none ∨ p.user_id = none) →
      identify verify_token db token = Except.error credentials_exception) ∧
    (∀ p un uid, verify_token token = some p → p.sub = some un →
      p.user_id = some uid → db.find? (fun u => u.id == uid) = none →
      identify verify_token db token =
        Except.error { status := 404, detail := "User not found",
                       www_authenticate := false }) ∧
    (∀ p un uid u, verify_token token = some p → p.sub = some un →
      p.user_id = some uid → db.find? (fun u => u.id == uid) = some u →
      identify verify_token db token = Except.ok (userView u)) := by
  refine ⟨fun h => ?_, fun p hp hmiss => ?_, fun p un uid hp hs hu hf => ?_,
          fun p un uid u hp hs hu hf => ?_⟩
  · simp [identify, get_current_user, h]
  · rcases hmiss with h | h
    · simp [identify, get_current_user, hp, h]
    · cases hs : p.sub <;> simp [identify, get_current_user, hp, h, hs]
  · simp [identify, get_current_user, get_current_user_info, hp, hs, hu, hf]
  · simp [identify, get_current_user, get_current_user_info, hp, hs, hu, hf]

/-- Witness for C6: a rejected token gives 401; a decodable token whose
`user_id` matches the stored user returns that user's view; one whose
`user_id` matches nobody gives 404. -/
theorem identify_case_analysis_witness :
    identify (fun _ => none) [sampleUser] "t" =
      Except.error credentials_exception ∧
    identify (fun _ => some { sub := some "alice", user_id := some "id-1",
                              email := none, full_name := none })
      [sampleUser] "t" = Except.ok (userView sampleUser) ∧
    identify (fun _ => some { sub := some "alice", user_id := some "ghost",
                              email := none, full_name := none })
      [sampleUser] "t" =
      Except.error { status := 404, detail := "User not found",
                     www_authenticate := false } :=
  ⟨(identify_case_analysis (fun _ => none) [sampleUser] "t").1 rfl,
   (identify_case_analysis _ [sampleUser] "t").2.2.2
     _ "alice" "id-1" sampleUser rfl rfl rfl (by decide),
   (identify_case_analysis _ [sampleUser] "t").2.2.1
     _ "alice" "ghost" rfl rfl rfl (by decide)⟩

/-- C7: with `available = false` the text-analysis facades are deterministic
functions of the input text alone: two invocations agree whatever the
external delegate would have done (no randomness, no delegation), and both
equal the keyword-based mock result. -/
theorem text_fallback_deterministic
    (d1 d2 : String → Except String SentimentResult)
    (c1 c2 : String → Option (List String) → Except String ClassificationResult)
    (t : String) (cats1 cats2 : Option (List String)) :
    analyze_sentiment false d1 t = analyze_sentiment false d2 t ∧
    classify_text false c1 t cats1 = classify_text false c2 t cats2 ∧
    analyze_sentiment false d1 t = mock_sentiment_analysis t ∧
    classify_text false c1 t cats1 = mock_text_classification t := by
  simp [analyze_sentiment, classify_text]

/-- C5: `register` fails 400 "Username already registered" when a stored
user's username equals (case-sensitively) the requested one and the store is
unchanged; fails 400 "Email already registered" likewise for email;
otherwise it appends exactly one record carrying the freshly drawn id, the
hash of the password (not the plaintext), `is_active = true` and
`created_at = now`, and returns the view without the hash field — and when
the drawn id is fresh, the new record is the only one under that id. -/
theorem register_full_spec (db : List UserRec) (hash : String → String)
    (new_id : String) (now : Nat) (r : UserCreate) :
    (db.any (fun u => u.username == r.username) = true →
      register db hash new_id now r =
        (Except.error { status := 400, detail := "Username already registered",
                        www_authenticate := false }, db)) ∧
    (db.any (fun u => u.username == r.username) = false →
      db.any (fun u => u.email == r.email) = true →
      register db hash new_id now r =
        (Except.error { status := 400, detail := "Email already registered",
                        www_authenticate := false }, db)) ∧
    (db.any (fun u => u.username == r.username) = false →
      db.any (fun u => u.email == r.email) = false →
      register db hash new_id now r =
        (Except.ok { id := new_id, username := r.username, email := r.email,
                     full_name := r.full_name, is_active := true,
                     created_at := now },
         db ++ [{ id := new_id, username := r.username, email := r.email,
                  full_name := r.full_name, hashed_password := hash r.password,
                  is_active := true, created_at := now }])) ∧
    (db.any (fun u => u.username == r.username) = false →
      db.any (fun u => u.email == r.email) = false →
      (∀ u ∈ db, u.id ≠ new_id) →
      ((register db hash new_id now r).2.filter
        (fun u => u.id == new_id)).length = 1) := by
  refine ⟨fun hu => ?_, fun hu he => ?_, fun hu he => ?_, fun hu he hid => ?_⟩
  · simp [register, hu]
  · simp [register, hu, he]
  · simp [register, hu, he, userView]
  · have hnil : db.filter (fun u => u.id == new_id) = [] := by
      rw [List.filter_eq_nil_iff]
      intro u hu'
      simp [hid u hu']
    simp [register, hu, he, List.filter_append, hnil]

/-- Witness for C5: registering "bob" into an empty store appends exactly
his record; registering a second "alice" into a store already holding one
fails with the duplicate-username error and leaves the store unchanged. -/
theorem register_full_spec_witness :
    register [] (fun s => "H" ++ s) "id-9" 5
      { username := "bob", email := "bob@x.com", password := "secret",
        full_name := none } =
      (Except.ok { id := "id-9", username := "bob", email := "bob@x.com",
                   full_name := none, is_active := true, created_at := 5 },
       [{ id := "id-9", username := "bob", email := "bob@x.com",
          full_name := none, hashed_password := "H" ++ "secret",
          is_active := true, created_at := 5 }]) ∧
    register [sampleUser] (fun s => "H" ++ s) "id-9" 5
      { username := "alice", email := "other@x.com", password := "p",
        full_name := none } =
      (Except.error { status := 400, detail := "Username already registered",
                      www_authenticate := false }, [sampleUser]) :=
  ⟨(register_full_spec [] (fun s => "H" ++ s) "id-9" 5
      { username := "bob", email := "bob@x.com", password := "secret",
        full_name := none }).2.2.1 rfl rfl,
   (register_full_spec [sampleUser] (fun s => "H" ++ s) "id-9" 5
      { username := "alice", email := "other@x.com", password := "p",
        full_name := none }).1 (by decide)⟩

/-- C10: when the requested username *and* email both collide with stored
users, the username check fires first (the error is the duplicate-username
one), and every failing `register` call leaves the store unchanged. -/
theorem register_username_precedence_and_no_mutation (db : List UserRec)
    (hash : String → String) (new_id : String) (now : Nat) (r : UserCreate) :
    (db.any (fun u => u.username == r.username) = true →
      db.any (fun u => u.email == r.email) = true →
      register db hash new_id now r =
        (Except.error { status := 400, detail := "Username already registered",
                        www_authenticate := false }, db)) ∧
    (∀ e, (register db hash new_id now r).1 = Except.error e →
      (register db hash new_id now r).2 = db) := by
  constructor
  · intro hu _
    simp [register, hu]
  · intro e he
    by_cases hu : db.any (fun u => u.username == r.username) = true
    · simp [register, hu]
    · by_cases hem : db.any (fun u => u.email == r.email) = true
      · simp [register, hu, hem]
      · simp [register, hu, hem] at he

/-- Witness for C10: a request whose username and email both collide with
the stored "alice" record fails with the duplicate-username error and the
store stays `[sampleUser]`. -/
theorem register_username_precedence_witness :
    register [sampleUser] (fun s => s) "id-9" 5
      { username := "alice", email := "alice@x.com", password := "p",
        full_name := none } =
      (Except.error { status := 400, detail := "Username already registered",
                      www_authenticate := false }, [sampleUser]) ∧
    (register [sampleUser] (fun s => s) "id-9" 5
      { username := "alice", email := "alice@x.com", password := "p",
        full_name := none }).2 = [sampleUser] :=
  ⟨(register_username_precedence_and_no_mutation [sampleUser] (fun s => s)
      "id-9" 5 { username := "alice", email := "alice@x.com", password := "p",
                 full_name := none }).1 (by decide) (by decide),
   (register_username_precedence_and_no_mutation [sampleUser] (fun s => s)
      "id-9" 5 { username := "alice", email := "alice@x.com", password := "p",
                 full_name := none }).2
     { status := 400, detail := "Username already registered",
       www_authenticate := false } (by decide)⟩

/-- After an overwriting upload, the blob stored under the key is the
uploaded one. -/
theorem lookup_upload_self (k : String) (v : LogBlob) :
    ∀ store : List (String × LogBlob), (upload_blob store k v).lookup k = some v := by
  intro store
  induction store with
  | nil => simp [upload_blob, List.lookup]
  | cons a l ih =>
    by_cases hak : a.1 = k
    · simpa [upload_blob, hak] using ih
    · have h1 : (a.1 == k) = false := beq_eq_false_iff_ne.2 hak
      have h2 : (k == a.1) = false := beq_eq_false_iff_ne.2 (Ne.symm hak)
      simp only [upload_blob, List.filter_cons, h1, Bool.not_false, if_true] at ih ⊢
      simpa [List.lookup, h2] using ih

/-- An overwriting upload leaves every other key's blob unchanged. -/
theorem lookup_upload_other (k k' : String) (v : LogBlob) (hne : k' ≠ k) :
    ∀ store : List (String × LogBlob),
      (upload_blob store k v).lookup k' = store.lookup k' := by
  intro store
  have hk'k : (k' == k) = false := beq_eq_false_iff_ne.2 hne
  induction store with
  | nil => simp [upload_blob, List.lookup, hk'k]
  | cons a l ih =>
    by_cases hak : a.1 = k
    · have h1 : (k' == a.1) = false := beq_eq_false_iff_ne.2 (hak ▸ hne)
      simpa [upload_blob, hak, List.lookup, h1, hk'k] using ih
    · have h1 : (a.1 == k) = false := beq_eq_false_iff_ne.2 hak
      by_cases hk'a : k' = a.1
      · simp [upload_blob, List.filter_cons, h1, List.lookup, hk'a]
      · have h2 : (k' == a.1) = false := beq_eq_false_iff_ne.2 hk'a
        simp only [upload_blob, List.filter_cons, h1, Bool.not_false, if_true] at ih ⊢
        simpa [List.lookup, h2] using ih

/-- Re-uploading under the same key is absorbing: the last write fully
determines the container. -/
theorem upload_upload (k : String) (v1 v2 : LogBlob)
    (store : List (String × LogBlob)) :
    upload_blob (upload_blob store k v1) k v2 = upload_blob store k v2 := by
  simp [upload_blob, List.filter_append, List.filter_filter, Bool.and_self]

/-- C8: `save_request_log` writes under `logs/<date>/<request_id>.json`, a
key computed from the request id and the date alone; the record (with its
`logged_at` stamp) lands under exactly that key, every other key is
untouched, and writing the same record a second time on the same date
overwrites the first so the container equals that of a single write. -/
theorem save_request_log_key_and_idempotence
    (store : List (String × LogBlob)) (date ts1 ts2 request_id data : String) :
    blob_key date request_id = "logs/" ++ date ++ "/" ++ request_id ++ ".json" ∧
    (save_request_log true store date ts1 request_id data).2.lookup
      (blob_key date request_id) = some { payload := data, logged_at := ts1 } ∧
    (∀ k, k ≠ blob_key date request_id →
      (save_request_log true store date ts1 request_id data).2.lookup k =
        store.lookup k) ∧
    (save_request_log true
        (save_request_log true store date ts1 request_id data).2
        date ts2 request_id data).2 =
      (save_request_log true store date ts2 request_id data).2 := by
  refine ⟨rfl, ?_, ?_, ?_⟩
  · simpa [save_request_log] using
      lookup_upload_self (blob_key date request_id)
        { payload := data, logged_at := ts1 } store
  · intro k hk
    simpa [save_request_log] using
      lookup_upload_other (blob_key date request_id) k
        { payload := data, logged_at := ts1 } hk store
  · simpa [save_request_log] using
      upload_upload (blob_key date request_id)
        { payload := data, logged_at := ts1 }
        { payload := data, logged_at := ts2 } store

/-- Witness for C8: on a container already holding an unrelated blob "x",
saving a log stores it under its own key, leaves "x" unchanged, and a
repeated save equals a single save. -/
theorem save_request_log_witness :
    (save_request_log true [("x", { payload := "d", logged_at := "t0" })]
      "20260101" "t1" "r1" "body").2.lookup "x" =
      ([("x", { payload := "d", logged_at := "t0" })] :
        List (String × LogBlob)).lookup "x" ∧
    (save_request_log true
        (save_request_log true [("x", { payload := "d", logged_at := "t0" })]
          "20260101" "t1" "r1" "body").2
        "20260101" "t1" "r1" "body").2 =
      (save_request_log true [("x", { payload := "d", logged_at := "t0" })]
        "20260101" "t1" "r1" "body").2 :=
  ⟨(save_request_log_key_and_idempotence
      [("x", { payload := "d", logged_at := "t0" })]
      "20260101" "t1" "t1" "r1" "body").2.2.1 "x" (by decide),
   (save_request_log_key_and_idempotence
      [("x", { payload := "d", logged_at := "t0" })]
      "20260101" "t1" "t1" "r1" "body").2.2.2⟩

/-- C9: whatever the random draws, the image-classification fallback
returns a pose among {lying, standing, sitting}; its confidence — which is
also the score recorded for the returned pose — lies in [0.7, 0.95] by the
contract of `random.uniform(0.7, 0.95)`; and every class other than the
returned pose scores within [0.05, 0.3]. -/
theorem mock_classification_range (choice : Fin 3) (conf : ℚ)
    (draw : String → ℚ) (hc1 : 0.7 ≤ conf) (hc2 : conf ≤ 0.95)
    (hd : ∀ s, 0.05 ≤ draw s ∧ draw s ≤ 0.3) :
    ((mock_classification choice conf draw).pose = "lying" ∨
     (mock_classification choice conf draw).pose = "standing" ∨
     (mock_classification choice conf draw).pose = "sitting") ∧
    0.7 ≤ (mock_classification choice conf draw).confidence ∧
    (mock_classification choice conf draw).confidence ≤ 0.95 ∧
    (∀ p ∈ (mock_classification choice conf draw).all_scores,
      (p.1 = (mock_classification choice conf draw).pose → p.2 = conf) ∧
      (p.1 ≠ (mock_classification choice conf draw).pose →
        0.05 ≤ p.2 ∧ p.2 ≤ 0.3)) := by
  refine ⟨?_, hc1, hc2, ?_⟩
  · fin_cases choice <;> simp [mock_classification, image_classes]
  · intro p hp
    have hpose : (mock_classification choice conf draw).pose =
        image_classes.getD choice.val "" := rfl
    simp only [mock_classification, List.mem_map] at hp
    obtain ⟨cls, hcls, rfl⟩ := hp
    rw [hpose]
    by_cases hcp : cls = image_classes.getD choice.val ""
    · simp [hcp]
    · have hb : (cls == image_classes.getD choice.val "") = false :=
        beq_eq_false_iff_ne.2 hcp
      simp only [hb, if_false]
      exact ⟨fun h => absurd h hcp, fun _ => hd cls⟩

/-- Witness for C9 at the concrete draws choice = 0, conf = 0.8 and a
constant 0.1 per-class draw. -/
theorem mock_classification_range_witness :
    (0.7 : ℚ) ≤ 0.8 ∧ (0.8 : ℚ) ≤ 0.95 ∧
    (((mock_classification 0 0.8 (fun _ => 0.1)).pose = "lying" ∨
      (mock_classification 0 0.8 (fun _ => 0.1)).pose = "standing" ∨
      (mock_classification 0 0.8 (fun _ => 0.1)).pose = "sitting") ∧
     0.7 ≤ (mock_classification 0 0.8 (fun _ => 0.1)).confidence ∧
     (mock_classification 0 0.8 (fun _ => 0.1)).confidence ≤ 0.95 ∧
     (∀ p ∈ (mock_classification 0 0.8 (fun _ => 0.1)).all_scores,
       (p.1 = (mock_classification 0 0.8 (fun _ => 0.1)).pose → p.2 = 0.8) ∧
       (p.1 ≠ (mock_classification 0 0.8 (fun _ => 0.1)).pose →
         0.05 ≤ p.2 ∧ p.2 ≤ 0.3))) :=
  ⟨by norm_num, by norm_num,
   mock_classification_range 0 0.8 (fun _ => 0.1) (by norm_num) (by norm_num)
     (fun _ => ⟨by norm_num, by norm_num⟩)⟩

/-- C1 counterexample: a `chat_completion` call whose delegation raises
returns the propagated error — not the fallback that the unavailable-client
path would produce — so the claim fails for the chat facade. -/
theorem chat_completion_error_propagation_counterexample :
    chat_completion true (fun _ _ _ => Except.error "upstream timeout")
      "hello" 150 0.7 = Except.error "upstream timeout" ∧
    chat_completion true (fun _ _ _ => Except.error "upstream timeout")
      "hello" 150 0.7 ≠
    chat_completion false (fun _ _ _ => Except.error "upstream timeout")
      "hello" 150 0.7 := by
  refine ⟨rfl, ?_⟩
  simp [chat_completion]

/-- C1 amended: a delegation error degrades to the deterministic fallback
for `analyze_sentiment` and `classify_text`; `chat_completion` re-raises the
delegation error; and an input failing validation is rejected with a 422
client error before any facade runs, whatever the delegate or availability. -/
theorem facade_degradation_amended :
    (∀ (d : String → Except String SentimentResult) (t msg : String),
      d t = Except.error msg →
      analyze_sentiment true d t = mock_sentiment_analysis t) ∧
    (∀ (d : String → Option (List String) → Except String ClassificationResult)
       (t : String) (cats : Option (List String)) (msg : String),
      d t cats = Except.error msg →
      classify_text true d t cats = mock_text_classification t) ∧
    (∀ (d : String → Nat → ℚ → Except String ChatResult) (p : String)
       (mt : Nat) (tp : ℚ) (msg : String),
      d p mt tp = Except.error msg →
      chat_completion true d p mt tp = Except.error msg) ∧
    (∀ (client : Bool) (d : String → Nat → ℚ → Except String ChatResult)
       (p : String) (mt : Nat) (tp : ℚ) (rid : String),
      validText p = false →
      chat_route client d p mt tp rid =
        Except.error (.httpExc 422 "validation error")) ∧
    (∀ (client : Bool) (d : String → Except String SentimentResult)
       (t rid : String),
      validText t = false →
      sentiment_route client d t rid =
        Except.error (.httpExc 422 "validation error")) := by
  refine ⟨fun d t msg h => ?_, fun d t cats msg h => ?_,
          fun d p mt tp msg h => ?_, fun client d p mt tp rid h => ?_,
          fun client d t rid h => ?_⟩
  · simp [analyze_sentiment, h]
  · simp [classify_text, h]
  · simp [chat_completion, h]
  · simp [chat_route, h]
  · simp [sentiment_route, h]

/-- Witness for the amended C1, at a delegate that always raises "boom" and
at the empty (under-length) input for the validation clauses. -/
theorem facade_degradation_amended_witness :
    analyze_sentiment true (fun _ => Except.error "boom") "I love it" =
      mock_sentiment_analysis "I love it" ∧
    classify_text true (fun _ _ => Except.error "boom") "tech news" none =
      mock_text_classification "tech news" ∧
    chat_completion true (fun _ _ _ => Except.error "boom") "hi" 150 0.7 =
      Except.error "boom" ∧
    chat_route true (fun _ _ _ => Except.error "boom") "" 150 0.7 "rid" =
      Except.error (.httpExc 422 "validation error") ∧
    sentiment_route true (fun _ => Except.error "boom") "" "rid" =
      Except.error (.httpExc 422 "validation error") :=
  ⟨facade_degradation_amended.1 (fun _ => Except.error "boom")
     "I love it" "boom" rfl,
   facade_degradation_amended.2.1 (fun _ _ => Except.error "boom")
     "tech news" none "boom" rfl,
   facade_degradation_amended.2.2.1 (fun _ _ _ => Except.error "boom")
     "hi" 150 0.7 "boom" rfl,
   facade_degradation_amended.2.2.2.1 true (fun _ _ _ => Except.error "boom")
     "" 150 0.7 "rid" (by decide),
   facade_degradation_amended.2.2.2.2 true (fun _ => Except.error "boom")
     "" "rid" (by decide)⟩

set_option maxHeartbeats 1600000 in
/-- C2 counterexample: a text containing all eight positive and all eight
negative keywords drives the raw scores to 0.8 each, so the neutral score
1 − 0.8 − 0.8 = −0.6 falls below the claimed interval [0,1]. -/
theorem mock_sentiment_neutral_negative_counterexample :
    (mock_sentiment_analysis
      "good great excellent amazing wonderful fantastic love happy bad terrible awful horrible hate sad angry poor").scores.neutral
      < 0 := by
  have h1 : kwScore positive_words (pyLower
      "good great excellent amazing wonderful fantastic love happy bad terrible awful horrible hate sad angry poor") = 8 := by
    decide
  have h2 : kwScore negative_words (pyLower
      "good great excellent amazing wonderful fantastic love happy bad terrible awful horrible hate sad angry poor") = 8 := by
    decide
  simp only [mock_sentiment_analysis, h1, h2]
  norm_num

/-- C2 amended: for every input the positive and negative scores of the
fallback sentiment analysis lie in [0,1]; the neutral score lies in
[−3/5, 1] — it can go negative (down to −3/5) when the text contains many
keywords of both polarities, since it is 1 minus both raw scores. -/
theorem mock_sentiment_score_ranges_amended (text : String) :
    0 ≤ (mock_sentiment_analysis text).scores.positive ∧
    (mock_sentiment_analysis text).scores.positive ≤ 1 ∧
    0 ≤ (mock_sentiment_analysis text).scores.negative ∧
    (mock_sentiment_analysis text).scores.negative ≤ 1 ∧
    -(3/5) ≤ (mock_sentiment_analysis text).scores.neutral ∧
    (mock_sentiment_analysis text).scores.neutral ≤ 1 := by
  have hpn : kwScore positive_words (pyLower text) ≤ 8 :=
    kwScore_le_length positive_words (pyLower text)
  have hnn : kwScore negative_words (pyLower text) ≤ 8 :=
    kwScore_le_length negative_words (pyLower text)
  have hp : (kwScore positive_words (pyLower text) : ℚ) ≤ 8 := by
    exact_mod_cast hpn
  have hn : (kwScore negative_words (pyLower text) : ℚ) ≤ 8 := by
    exact_mod_cast hnn
  have hp0 : (0 : ℚ) ≤ (kwScore positive_words (pyLower text) : ℚ) :=
    Nat.cast_nonneg _
  have hn0 : (0 : ℚ) ≤ (kwScore negative_words (pyLower text) : ℚ) :=
    Nat.cast_nonneg _
  simp only [mock_sentiment_analysis]
  split_ifs with h1 h2
  · refine ⟨?_, ?_, ?_, ?_, ?_, ?_⟩ <;> dsimp only
    · refine le_min ?_ ?_ <;> positivity
    · exact le_trans (min_le_right _ _) (by norm_num)
    · positivity
    · linarith [hn]
    · linarith [hp, hn]
    · linarith [hp0, hn0]
  · refine ⟨?_, ?_, ?_, ?_, ?_, ?_⟩ <;> dsimp only
    · positivity
    · linarith [hp]
    · refine le_min ?_ ?_ <;> positivity
    · exact le_trans (min_le_right _ _) (by norm_num)
    · linarith [hp, hn]
    · linarith [hp0, hn0]
  · refine ⟨?_, ?_, ?_, ?_, ?_, ?_⟩ <;> dsimp only
    · positivity
    · linarith [hp]
    · positivity
    · linarith [hn]
    · linarith [hp, hn]
    · linarith [hp0, hn0]

/-- C3 counterexample: with the debug flag off, a pipeline error ("boom" in
the chat facade) still reaches the caller verbatim in the 500 detail,
because the endpoint's own handler re-raises `HTTPException(500, str(e))`,
bypassing the debug-gated global handler. -/
theorem debug_gating_counterexample :
    app_response false
      (chat_route true (fun _ _ _ => Except.error "boom") "hi" 150 0.7 "rid") =
      (500, "boom") ∧
    ("boom" : String) ≠ "An error occurred" := by
  refine ⟨rfl, ?_⟩
  decide

/-- C3 amended: an error raised during endpoint processing is caught by the
endpoint and surfaced as a 500 carrying the original message for *both*
debug settings; only an exception escaping to the global handler has its
detail gated by the debug flag (original message if set, redacted otherwise). -/
theorem pipeline_error_translation_amended :
    (∀ (debug : Bool) (d : String → Nat → ℚ → Except String ChatResult)
       (p : String) (mt : Nat) (tp : ℚ) (rid msg : String),
      validText p = true → d p mt tp = Except.error msg →
      app_response debug (chat_route true d p mt tp rid) = (500, msg)) ∧
    (∀ (debug : Bool) (msg : String),
      app_error_response debug (PyErr.exc msg) =
        (500, if debug then msg else "An error occurred")) := by
  constructor
  · intro debug d p mt tp rid msg hv hd
    simp [chat_route, chat_completion, hv, hd, app_response, app_error_response]
  · intro debug msg
    rfl

/-- Witness for the amended C3: a "kaput" facade error reaches the caller
verbatim with debug off, while the same message through the global handler
is redacted. -/
theorem pipeline_error_translation_amended_witness :
    app_response false
      (chat_route true (fun _ _ _ => Except.error "kaput") "hello" 150 0.7
        "rid") = (500, "kaput") ∧
    app_error_response false (PyErr.exc "kaput") = (500, "An error occurred") :=
  ⟨pipeline_error_translation_amended.1 false (fun _ _ _ => Except.error "kaput")
     "hello" 150 0.7 "rid" "kaput" (by decide) rfl,
   by simpa using pipeline_error_translation_amended.2 false "kaput"⟩

end AzureDemo
